import Mathlib

/-!
Shallow embedding of the deterministic scoring engine
(`src/backend/app/services/scoring_service.py`) and the deterministic
curriculum generator (`src/backend/app/services/training_plan_service.py`).

Machine floats are modelled as real numbers; Python `round(x, 1)` is modelled
as round-half-to-even on tenths (`round1`); the wall clock read by the recency
scorer (`datetime.now`) is passed in explicitly as an integer day count `now`.
-/

namespace Aris

/-- Python substring test on character lists: `starts_with n h` is
`h` starting with `n`. -/
def starts_with : List Char → List Char → Bool
  | [], _ => true
  | _ :: _, [] => false
  | a :: as, b :: bs => a == b && starts_with as bs

/-- Python `n in h` membership on character lists. -/
def has_sub (n : List Char) : List Char → Bool
  | [] => starts_with n []
  | b :: bs => starts_with n (b :: bs) || has_sub n bs

/-- Python `a in b` on strings (substring containment). -/
def is_sub (a b : String) : Bool := has_sub a.data b.data

/-- Python `str.lower()` (ASCII case folding, the range these inputs use). -/
def lower_str (s : String) : String := ⟨s.data.map Char.toLower⟩

/-- Drop leading whitespace characters. -/
def drop_ws : List Char → List Char
  | [] => []
  | c :: cs => if c.isWhitespace then drop_ws cs else c :: cs

/-- Python `str.strip()`: drop leading and trailing whitespace. -/
def trim_str (s : String) : String :=
  ⟨(drop_ws (drop_ws s.data).reverse).reverse⟩

/-- Characters before the first whitespace character. -/
def word_head : List Char → List Char
  | [] => []
  | c :: cs => if c.isWhitespace then [] else c :: word_head cs

/-- The `_clamp(value, lo, hi) = max(lo, min(hi, value))` helper. -/
noncomputable def clamp (value lo hi : ℝ) : ℝ := max lo (min hi value)

/-- The `_log_curve(x, scale)` helper: 0 for x ≤ 0, else `min(1, log1p(x)/log1p(scale))`. -/
noncomputable def log_curve (x scale : ℝ) : ℝ :=
  if x ≤ 0 then 0 else min 1 (Real.log (1 + x) / Real.log (1 + scale))

/-- Python `round(x, 1)`: round to one decimal, ties to even tenths. -/
noncomputable def round1 (x : ℝ) : ℝ :=
  (if 10 * x - (⌊10 * x⌋ : ℝ) < 1 / 2 then (⌊10 * x⌋ : ℝ)
   else if 1 / 2 < 10 * x - (⌊10 * x⌋ : ℝ) then (⌊10 * x⌋ : ℝ) + 1
   else if Even ⌊10 * x⌋ then (⌊10 * x⌋ : ℝ) else (⌊10 * x⌋ : ℝ) + 1) / 10

/-- Python `int(q)` for a rational: truncation toward zero. -/
def py_int (q : ℚ) : ℤ := if q < 0 then -⌊-q⌋ else ⌊q⌋

-- ── per-role keyword sets (`ROLE_KEYWORDS`) ─────────────────────────

def backend_keywords : List String :=
  ["python", "fastapi", "django", "flask", "api", "sql", "postgresql",
   "mongodb", "redis", "docker", "node.js", "express", "go", "java",
   "spring", "rest", "graphql", "microservices"]

def frontend_keywords : List String :=
  ["react", "javascript", "typescript", "html", "css", "vue", "angular",
   "next.js", "tailwind", "sass", "webpack", "vite", "ui", "ux",
   "responsive", "figma"]

def data_keywords : List String :=
  ["pandas", "numpy", "ml", "tensorflow", "sklearn", "pytorch", "r",
   "jupyter", "data", "analysis", "visualization", "statistics",
   "spark", "airflow", "sql", "tableau"]

def full_stack_keywords : List String :=
  ["react", "javascript", "typescript", "python", "node.js", "api",
   "sql", "html", "css", "docker", "mongodb", "postgresql", "rest",
   "git", "ci/cd", "aws"]

def devops_keywords : List String :=
  ["docker", "kubernetes", "aws", "gcp", "azure", "terraform",
   "ci/cd", "jenkins", "github actions", "linux", "shell", "ansible",
   "monitoring", "nginx", "prometheus"]

def ROLE_KEYWORDS : List (String × List String) :=
  [("backend", backend_keywords), ("frontend", frontend_keywords),
   ("data", data_keywords), ("full stack", full_stack_keywords),
   ("devops", devops_keywords)]

def ALL_ROLE_LABELS : List String := ROLE_KEYWORDS.map Prod.fst

/-- First whitespace-separated word of a label (`label.split()[0]`). -/
def first_word (s : String) : String := ⟨word_head s.data⟩

/-- The `_normalize_role_key` function: lowercase/trim, then substring match against the
category labels (both directions), then first-word match, else pass through. -/
def normalize_role_key (role : String) : String :=
  let key := lower_str (trim_str role)
  match ALL_ROLE_LABELS.find? (fun label => is_sub label key || is_sub key label) with
  | some label => label
  | none =>
    match ALL_ROLE_LABELS.find? (fun label => is_sub (first_word label) key) with
    | some label => label
    | none => key

-- ── input records ───────────────────────────────────────────────────

/-- One entry of `top_repositories`; only `stars` is read by the scorers. -/
structure RepoInfo where
  name : String
  stars : ℝ
  language : String

/-- Result of parsing the `last_activity` ISO string: a timestamp in integer
days, or a parse failure (the `except` branch of `_recency_score`). -/
inductive LastActivity where
  | parsed (timestamp : ℤ)
  | unparseable

/-- The `github_metrics` dict: the fields actually read by the scorers. -/
structure GitHubMetrics where
  total_public_repos : ℝ
  total_stars : ℝ
  commits_last_90_days : ℝ
  languages : List String
  top_repositories : List RepoInfo
  last_activity : Option LastActivity

/-- The parsed-résumé dict: the fields actually read by the scorers. -/
structure ResumeData where
  keywords_detected : List String
  ats_score : ℝ

/-- Résumé keywords as lowered/trimmed strings (no emptiness filter), as
built inside `_role_alignment_score` and `_compute_all_role_scores`. -/
def cleaned_keywords : Option ResumeData → List String
  | none => []
  | some rd => rd.keywords_detected.map (fun k => lower_str (trim_str k))

/-- Language keys lowered and unioned with the résumé keywords. -/
def combined_keywords (languages : List String) (resume_data : Option ResumeData) :
    List String :=
  languages.map lower_str ++ cleaned_keywords resume_data

/-- Count `sum(1 for kw in required if kw in combined)`. -/
def match_count (required combined : List String) : ℕ :=
  (required.filter (fun kw => combined.contains kw)).length

/-- Fixed reference vocabulary `all_tech` of `_resume_skill_score`. -/
def all_tech : List String :=
  ["python", "fastapi", "django", "flask", "api", "sql", "react",
   "javascript", "typescript", "html", "css", "pandas", "numpy",
   "ml", "tensorflow", "sklearn", "docker", "aws", "postgresql",
   "mongodb", "git", "node.js", "java", "go", "rust", "vue",
   "angular", "kubernetes", "redis", "graphql", "next.js", "express",
   "spring", "pytorch", "linux", "shell", "ci/cd"]

-- ── component scorers ───────────────────────────────────────────────

/-- The `_resume_skill_score` component — 0-30 points. -/
noncomputable def resume_skill_score (resume_data : Option ResumeData)
    (languages : List String) : ℝ :=
  match resume_data with
  | none =>
    let lang_keys := (languages.map lower_str).dedup
    let base := min ((lang_keys.length : ℝ) * 3.0) 15.0
    clamp base 0 30
  | some rd =>
    let keyword_set :=
      (rd.keywords_detected.map (fun k => lower_str (trim_str k))).filter (fun k => k ≠ "")
    let lang_keys := languages.map lower_str
    let combined := keyword_set ++ lang_keys
    let n_matches := (all_tech.filter (fun t => combined.contains t)).length
    let score := min ((n_matches : ℝ) * 3.0) 30.0
    let ats := rd.ats_score
    let score2 := if ats > 0 then max score (ats * 0.3) else score
    clamp score2 0 30

/-- The `_github_activity_score` component — 0-25 points. -/
noncomputable def github_activity_score (m : GitHubMetrics) : ℝ :=
  let star_pts := log_curve m.total_stars 20 * 8.0
  let commit_pts := log_curve m.commits_last_90_days 30 * 10.0
  let repo_pts := log_curve m.total_public_repos 8 * 7.0
  clamp (star_pts + commit_pts + repo_pts) 0 25

/-- The `_project_depth_score` component — 0-20 points. -/
noncomputable def project_depth_score (m : GitHubMetrics) : ℝ :=
  let top_stars := (m.top_repositories.map RepoInfo.stars).sum
  let star_pts := log_curve top_stars 10 * 7.0
  let lang_pts := min ((m.languages.length : ℝ) / 3.0) 1.0 * 6.0
  let repo_pts := log_curve m.total_public_repos 5 * 4.0
  let detail_pts := ((min m.top_repositories.length 3 : ℕ) : ℝ) * 1.0
  clamp (star_pts + lang_pts + repo_pts + detail_pts) 0 20

/-- The `_role_alignment_score` component — 0-15 points for the applied role. -/
noncomputable def role_alignment_score (role_key : String)
    (languages : List String) (resume_data : Option ResumeData) : ℝ :=
  match ROLE_KEYWORDS.lookup role_key with
  | none => 7.5
  | some required =>
    if required.isEmpty then 7.5
    else
      let combined := combined_keywords languages resume_data
      let ratio := (match_count required combined : ℝ) / (required.length : ℝ)
      clamp (ratio * 15.0) 0 15

/-- The `_recency_score` component — 0-10 points; `now` is the current day read from the
wall clock by the original code. -/
noncomputable def recency_score (m : GitHubMetrics) (now : ℤ) : ℝ :=
  let commit_pts := log_curve m.commits_last_90_days 20 * 5.0
  let freshness_pts : ℝ :=
    match m.last_activity with
    | none => 0
    | some .unparseable => 2.0
    | some (.parsed t) =>
      let days_ago := now - t
      if days_ago ≤ 7 then 5.0
      else if days_ago ≤ 30 then 4.0
      else if days_ago ≤ 90 then 3.0
      else if days_ago ≤ 180 then 1.5
      else 0.0
  clamp (commit_pts + freshness_pts) 0 10

/-- The `_compute_all_role_scores` function: match percentage for every role. -/
noncomputable def compute_all_role_scores (languages : List String)
    (resume_data : Option ResumeData) : List (String × ℝ) :=
  ROLE_KEYWORDS.map (fun p =>
    let combined := combined_keywords languages resume_data
    let n_matches := match_count p.2 combined
    (p.1, round1 (clamp ((n_matches : ℝ) / (p.2.length : ℝ) * 100) 0 100)))

-- ── aggregator ──────────────────────────────────────────────────────

/-- The `score_breakdown` sub-dict of the aggregator output. -/
structure ScoreBreakdown where
  resume_skill_score : ℝ
  github_activity_score : ℝ
  project_quality_score : ℝ
  role_alignment_score : ℝ
  recency_score : ℝ
  all_role_scores : List (String × ℝ)

/-- The dict returned by `compute_scores`. -/
structure CompositeResult where
  master_score : ℝ
  confidence_band : String
  score_breakdown : ScoreBreakdown
  learning_gaps : List String

/-- The band if-chain of `compute_scores` (lines 273-280). -/
noncomputable def band_of (master_score : ℝ) : String :=
  if master_score ≥ 75 then "Strong"
  else if master_score ≥ 60 then "Good"
  else if master_score ≥ 45 then "Moderate"
  else "Risk"

/-- Python `role_applied or 'target'` used in the fourth gap string. -/
def role_display (role_applied : Option String) : String :=
  match role_applied with
  | some s => if s = "" then "target" else s
  | none => "target"

def gap_language : String :=
  "Expand language diversity — learn a second core language"

def gap_consistency : String :=
  "Increase coding consistency — aim for regular commits"

def gap_visibility : String :=
  "Build projects with greater visibility and documentation"

def gap_resume : String :=
  "Add more relevant tech keywords and project details to resume"

/-- The aggregator `compute_scores(github_metrics, resume_data, role_applied)`; `now` is the
day count `datetime.now` would return inside `_recency_score`. -/
noncomputable def compute_scores (github_metrics : GitHubMetrics)
    (resume_data : Option ResumeData) (role_applied : Option String)
    (now : ℤ) : CompositeResult :=
  let languages := github_metrics.languages
  let role_key := normalize_role_key (role_applied.getD "")
  let resume_pts := resume_skill_score resume_data languages
  let github_pts := github_activity_score github_metrics
  let project_pts := project_depth_score github_metrics
  let role_pts := role_alignment_score role_key languages resume_data
  let recency_pts := recency_score github_metrics now
  let master_score :=
    clamp (resume_pts + github_pts + project_pts + role_pts + recency_pts) 0 100
  let confidence_band := band_of master_score
  let all_roles := compute_all_role_scores languages resume_data
  let lang_count := languages.length
  let commits_90 := github_metrics.commits_last_90_days
  let stars := github_metrics.total_stars
  let gaps0 : List String := []
  let gaps1 := if lang_count < 2 then gaps0 ++ [gap_language] else gaps0
  let gaps2 := if commits_90 < 10 then gaps1 ++ [gap_consistency] else gaps1
  let gaps3 := if stars < 3 then gaps2 ++ [gap_visibility] else gaps2
  let gaps4 :=
    if role_pts < 8 then
      gaps3 ++ ["Strengthen skills aligned to " ++ role_display role_applied ++ " role"]
    else gaps3
  let gaps5 :=
    if resume_pts < 15 ∧ resume_data.isSome then gaps4 ++ [gap_resume] else gaps4
  ⟨round1 master_score, confidence_band,
   ⟨round1 resume_pts, round1 github_pts, round1 project_pts,
    round1 role_pts, round1 recency_pts, all_roles⟩,
   gaps5⟩

-- ── deterministic training plan (`training_plan_service.py`) ────────

/-- One tier catalog of `ROLE_TRAINING_TOPICS`. -/
structure TierTopics where
  foundation : List String
  intermediate : List String
  advanced : List String

def backend_topics : TierTopics :=
  ⟨["Python fundamentals & best practices",
    "HTTP & REST API design patterns",
    "SQL & database design principles"],
   ["FastAPI / Django development",
    "Authentication & authorization patterns",
    "Database optimization & indexing"],
   ["Microservices architecture",
    "Caching strategies (Redis)",
    "API security & rate limiting"]⟩

def frontend_topics : TierTopics :=
  ⟨["HTML5 & CSS3 fundamentals",
    "JavaScript ES6+ core concepts",
    "Responsive design principles"],
   ["React component architecture",
    "State management (Context, Redux)",
    "TypeScript for React applications"],
   ["Performance optimization & code splitting",
    "Testing (Jest, React Testing Library)",
    "Next.js & server-side rendering"]⟩

def data_topics : TierTopics :=
  ⟨["Python for data analysis",
    "Pandas & NumPy fundamentals",
    "SQL for data querying"],
   ["Data visualization (Matplotlib, Seaborn)",
    "Statistical analysis & hypothesis testing",
    "Machine learning basics (scikit-learn)"],
   ["Deep learning (TensorFlow/PyTorch)",
    "Feature engineering & model optimization",
    "Data pipeline design (Airflow, dbt)"]⟩

def full_stack_topics : TierTopics :=
  ⟨["HTML/CSS/JS web fundamentals",
    "React component basics",
    "Node.js / Python backend basics"],
   ["Full stack CRUD application",
    "REST API + React integration",
    "Database design & ORM usage"],
   ["Docker & deployment workflows",
    "CI/CD pipeline setup",
    "System design & architecture"]⟩

def devops_topics : TierTopics :=
  ⟨["Linux command line & shell scripting",
    "Git workflows & branching strategies",
    "Basic networking concepts"],
   ["Docker containerization",
    "CI/CD with GitHub Actions",
    "Cloud services (AWS/GCP basics)"],
   ["Kubernetes orchestration",
    "Infrastructure as Code (Terraform)",
    "Monitoring & observability"]⟩

def ROLE_TRAINING_TOPICS : List (String × TierTopics) :=
  [("backend", backend_topics), ("frontend", frontend_topics),
   ("data", data_topics), ("full stack", full_stack_topics),
   ("devops", devops_topics)]

/-- Lookup `ROLE_TRAINING_TOPICS.get(role_key, ROLE_TRAINING_TOPICS["full stack"])`. -/
def role_topics_for (role_key : String) : TierTopics :=
  (ROLE_TRAINING_TOPICS.lookup role_key).getD full_stack_topics

/-- Selector `role_topics[level]` for the three tier keys. -/
def tier_list (t : TierTopics) (level : String) : List String :=
  if level = "foundation" then t.foundation
  else if level = "intermediate" then t.intermediate
  else t.advanced

/-- The band → (weeks, track, start_level) if-chain of
`generate_training_plan` (lines 116-131). -/
def band_params (confidence_band : String) : ℕ × String × String :=
  if confidence_band = "Risk" then (8, "Foundational", "foundation")
  else if confidence_band = "Moderate" then (6, "Strengthening", "foundation")
  else if confidence_band = "Good" then (5, "Accelerated", "intermediate")
  else (4, "Advanced", "advanced")

/-- The gap-string → focus-area classification (lines 135-148). -/
def focus_area_of (role_applied gap : String) : String :=
  let gl := lower_str gap
  if is_sub "language" gl || is_sub "diversity" gl then
    "Technology stack expansion for " ++ role_applied
  else if is_sub "consistency" gl || is_sub "commit" gl then
    "Regular coding practice & contribution discipline"
  else if is_sub "visibility" gl || is_sub "documentation" gl then
    "Project documentation & portfolio building"
  else if is_sub "role" gl || is_sub "align" gl then
    "Core " ++ role_applied ++ " skill development"
  else if is_sub "resume" gl then
    "Resume & professional profile enhancement"
  else "Technical skill development"

def level_order : List String := ["foundation", "intermediate", "advanced"]

/-- One element of `weekly_plan` (with `week : int ≥ 1`). -/
structure WeekEntry where
  week : ℕ
  goal : String
  objectives : List String
  topics : List String
  tasks : List String
  deliverables : List String

/-- The loop body for `week_num = w` of `generate_training_plan`
(lines 162-193). -/
def week_entry (role_topics : TierTopics) (start_idx weeks w : ℕ) : WeekEntry :=
  let progress : ℚ := ((w - 1 : ℕ) : ℚ) / ((max (weeks - 1) 1 : ℕ) : ℚ)
  let level_idx :=
    min (start_idx + (py_int (progress * ((2 : ℚ) - (start_idx : ℚ)))).toNat) 2
  let level := level_order.getD level_idx ""
  let topics := tier_list role_topics level
  let topic_idx := (w - 1) % topics.length
  let main_topic := topics.getD topic_idx ""
  let objectives :=
    ["Understand core concepts of " ++ lower_str main_topic,
     "Complete hands-on exercises for " ++
       lower_str (trim_str ((main_topic.splitOn "&").headD ""))]
  let tasks :=
    ["Build a mini-project demonstrating " ++
       lower_str (trim_str ((main_topic.splitOn "(").headD ""))]
  let deliverables :=
    ["Working code pushed to GitHub with documentation",
     "Progress report with learning reflections"]
  let others := ((topics.enum.filter (fun p => p.1 ≠ topic_idx)).map Prod.snd).take 1
  ⟨w, main_topic, objectives, [main_topic] ++ others, tasks, deliverables⟩

/-- The dict returned by `generate_training_plan`. -/
structure TrainingPlan where
  summary : String
  focus_areas : List String
  weekly_plan : List WeekEntry

/-- Stand-in for Python float formatting inside the summary f-string: no
stated property concerns the rendered digits, so the rendering itself is
not modelled. -/
def float_str (_score : ℝ) : String := ""

/-- The generator `generate_training_plan(score_result, role_applied, candidate_name)`. -/
def generate_training_plan (score_result : CompositeResult)
    (role_applied : String) (candidate_name : String) : TrainingPlan :=
  let master_score := score_result.master_score
  let confidence_band := score_result.confidence_band
  let learning_gaps := score_result.learning_gaps
  let role_key := normalize_role_key role_applied
  let role_topics := role_topics_for role_key
  let params := band_params confidence_band
  let weeks := params.1
  let track := params.2.1
  let start_level := params.2.2
  let fa0 := (learning_gaps.take 4).map (focus_area_of role_applied)
  let focus_areas :=
    if fa0.isEmpty then
      ["Deep " ++ role_applied ++ " specialization",
       "Building production-ready projects",
       "Industry best practices & patterns"]
    else fa0
  let start_idx :=
    if level_order.contains start_level then
      level_order.findIdx (fun l => l == start_level)
    else 0
  let weekly_plan :=
    (List.range weeks).map (fun i => week_entry role_topics start_idx weeks (i + 1))
  let name_ref := if candidate_name = "" then "" else " for " ++ candidate_name
  let summary :=
    track ++ " " ++ toString weeks ++ "-week training plan" ++ name_ref ++
    " targeting the " ++ role_applied ++ " role. Based on evaluation score of " ++
    float_str master_score ++ "/100 (" ++ confidence_band ++
    " confidence). Focuses on " ++
    String.intercalate ", " ((focus_areas.take 2).map lower_str) ++
    " to address identified skill gaps."
  ⟨summary, focus_areas, weekly_plan⟩

-- ── claim-side specification and concrete inputs ────────────────────

/-- The gap list exactly as claimed: five independent threshold checks in a
fixed order, each contributing at most one string. -/
noncomputable def gaps_spec (lang_count : ℕ) (commits stars role_pts resume_pts : ℝ)
    (has_resume : Bool) (role_txt : String) : List String :=
  (if lang_count < 2 then [gap_language] else []) ++
  (if commits < 10 then [gap_consistency] else []) ++
  (if stars < 3 then [gap_visibility] else []) ++
  (if role_pts < 8 then
    ["Strengthen skills aligned to " ++ role_txt ++ " role"] else []) ++
  (if has_resume ∧ resume_pts < 15 then [gap_resume] else [])

/-- Metrics with a single declared language and no other activity. -/
def metrics_python : GitHubMetrics := ⟨0, 0, 0, ["python"], [], none⟩

/-- The all-empty metrics record of the C6 scenario. -/
def metrics_empty : GitHubMetrics := ⟨0, 0, 0, [], [], none⟩

/-- Empty metrics except a parsed last-activity timestamp at day 0. -/
def metrics_active : GitHubMetrics := ⟨0, 0, 0, [], [], some (.parsed 0)⟩

/-- An all-zero score breakdown. -/
def breakdown_zero : ScoreBreakdown := ⟨0, 0, 0, 0, 0, []⟩

/-- A Strong-band composite result with no learning gaps. -/
def result_strong : CompositeResult := ⟨85, "Strong", breakdown_zero, []⟩

/-- A Strong-band composite result with exactly one learning gap. -/
def result_one_gap : CompositeResult := ⟨85, "Strong", breakdown_zero, [gap_language]⟩

-- ── helper lemmas ───────────────────────────────────────────────────

theorem le_clamp (x lo hi : ℝ) : lo ≤ clamp x lo hi := le_max_left _ _

theorem clamp_le {x lo hi : ℝ} (h : lo ≤ hi) : clamp x lo hi ≤ hi :=
  max_le h (min_le_left _ _)

theorem clamp_eq {x lo hi : ℝ} (h1 : lo ≤ x) (h2 : x ≤ hi) : clamp x lo hi = x := by
  unfold clamp
  rw [min_eq_right h2, max_eq_right h1]

theorem log_curve_nonpos {x s : ℝ} (h : x ≤ 0) : log_curve x s = 0 := by
  unfold log_curve
  rw [if_pos h]

theorem round1_eq_low {x : ℝ} {n : ℤ} (hn : ⌊10 * x⌋ = n)
    (h : 10 * x - (n : ℝ) < 1 / 2) : round1 x = (n : ℝ) / 10 := by
  unfold round1
  rw [hn, if_pos h]

theorem round1_eq_high {x : ℝ} {n : ℤ} (hn : ⌊10 * x⌋ = n)
    (h : 1 / 2 < 10 * x - (n : ℝ)) : round1 x = ((n : ℝ) + 1) / 10 := by
  unfold round1
  rw [hn, if_neg (by linarith), if_pos h]

theorem round1_nonneg {x : ℝ} (h : 0 ≤ x) : 0 ≤ round1 x := by
  unfold round1
  have hn : (0 : ℝ) ≤ (⌊10 * x⌋ : ℝ) := by
    have : (0 : ℤ) ≤ ⌊10 * x⌋ := Int.floor_nonneg.mpr (by linarith)
    exact_mod_cast this
  split_ifs <;> · apply div_nonneg _ (by norm_num); linarith

theorem round1_le_hundred {x : ℝ} (h : x ≤ 100) : round1 x ≤ 100 := by
  unfold round1
  have hfl : (⌊10 * x⌋ : ℝ) ≤ 10 * x := Int.floor_le _
  have hup : ((⌊10 * x⌋ : ℤ) : ℝ) ≤ 1000 := by linarith
  have h999 : 1 / 2 ≤ 10 * x - (⌊10 * x⌋ : ℝ) → ((⌊10 * x⌋ : ℤ) : ℝ) ≤ 999 := by
    intro hh
    have hlt : ((⌊10 * x⌋ : ℤ) : ℝ) < 1000 := by linarith
    have : (⌊10 * x⌋ : ℤ) < 1000 := by exact_mod_cast hlt
    have : (⌊10 * x⌋ : ℤ) ≤ 999 := by omega
    exact_mod_cast this
  split_ifs with h1 h2 h3
  · linarith
  · have := h999 (by linarith)
    linarith
  · linarith
  · have := h999 (by linarith)
    linarith

theorem lookup_forall {α β : Type} [BEq α] (P : β → Prop) :
    ∀ (l : List (α × β)) (k : α) (v : β),
      (∀ p ∈ l, P p.2) → l.lookup k = some v → P v := by
  intro l
  induction l with
  | nil => intro k v _ hl; simp [List.lookup] at hl
  | cons p t ih =>
    intro k v hall hl
    obtain ⟨a, b⟩ := p
    cases hab : (k == a) <;> simp only [List.lookup, hab] at hl
    · exact ih k v (fun q hq => hall q (List.mem_cons_of_mem _ hq)) hl
    · cases hl
      exact hall (a, v) (List.mem_cons_self _ _)

theorem lookup_map_assoc {α β γ : Type} [BEq α] (f : β → γ) :
    ∀ (l : List (α × β)) (k : α) (v : β),
      l.lookup k = some v →
      (l.map (fun p => (p.1, f p.2))).lookup k = some (f v) := by
  intro l
  induction l with
  | nil => intro k v hl; simp [List.lookup] at hl
  | cons p t ih =>
    intro k v hl
    obtain ⟨a, b⟩ := p
    cases hab : (k == a) <;>
      simp only [List.lookup, hab] at hl <;>
      simp only [List.map_cons, List.lookup, hab]
    · exact ih k v hl
    · cases hl
      rfl

theorem snd_mem_of_mem_enumFrom {α : Type} :
    ∀ (l : List α) (n : ℕ) (p : ℕ × α), p ∈ l.enumFrom n → p.2 ∈ l := by
  intro l
  induction l with
  | nil => intro n p hp; simp [List.enumFrom] at hp
  | cons x xs ih =>
    intro n p hp
    rw [List.enumFrom] at hp
    rcases List.mem_cons.mp hp with h | h
    · subst h
      exact List.mem_cons_self _ _
    · exact List.mem_cons_of_mem _ (ih (n + 1) p h)

theorem getD_mem_of_lt {α : Type} :
    ∀ (l : List α) (i : ℕ) (d : α), i < l.length → l.getD i d ∈ l := by
  intro l
  induction l with
  | nil => intro i d hd; simp at hd
  | cons x xs ih =>
    intro i d hd
    cases i with
    | zero => simp
    | succ j =>
      simp only [List.getD_cons_succ]
      exact List.mem_cons_of_mem _ (ih j d (by simpa using hd))

-- ── bounds of the component scorers ─────────────────────────────────

theorem resume_skill_score_bounds (r : Option ResumeData) (l : List String) :
    0 ≤ resume_skill_score r l ∧ resume_skill_score r l ≤ 30 := by
  cases r <;> simp only [resume_skill_score] <;>
    exact ⟨le_clamp _ _ _, clamp_le (by norm_num)⟩

theorem github_activity_score_bounds (m : GitHubMetrics) :
    0 ≤ github_activity_score m ∧ github_activity_score m ≤ 25 := by
  simp only [github_activity_score]
  exact ⟨le_clamp _ _ _, clamp_le (by norm_num)⟩

theorem project_depth_score_bounds (m : GitHubMetrics) :
    0 ≤ project_depth_score m ∧ project_depth_score m ≤ 20 := by
  simp only [project_depth_score]
  exact ⟨le_clamp _ _ _, clamp_le (by norm_num)⟩

theorem role_alignment_score_bounds (k : String) (l : List String)
    (r : Option ResumeData) :
    0 ≤ role_alignment_score k l r ∧ role_alignment_score k l r ≤ 15 := by
  rcases hl : ROLE_KEYWORDS.lookup k with _ | req <;>
    simp only [role_alignment_score, hl]
  · norm_num
  · by_cases he : req.isEmpty <;> simp only [he, if_true, if_false]
    · norm_num
    · exact ⟨le_clamp _ _ _, clamp_le (by norm_num)⟩

theorem recency_score_bounds (m : GitHubMetrics) (now : ℤ) :
    0 ≤ recency_score m now ∧ recency_score m now ≤ 10 := by
  simp only [recency_score]
  exact ⟨le_clamp _ _ _, clamp_le (by norm_num)⟩

-- ── definitional projections of `compute_scores` ────────────────────

theorem compute_scores_master (m : GitHubMetrics) (r : Option ResumeData)
    (ro : Option String) (now : ℤ) :
    (compute_scores m r ro now).master_score =
      round1 (clamp (resume_skill_score r m.languages + github_activity_score m +
        project_depth_score m +
        role_alignment_score (normalize_role_key (ro.getD "")) m.languages r +
        recency_score m now) 0 100) := rfl

theorem compute_scores_band (m : GitHubMetrics) (r : Option ResumeData)
    (ro : Option String) (now : ℤ) :
    (compute_scores m r ro now).confidence_band =
      band_of (clamp (resume_skill_score r m.languages + github_activity_score m +
        project_depth_score m +
        role_alignment_score (normalize_role_key (ro.getD "")) m.languages r +
        recency_score m now) 0 100) := rfl

theorem compute_scores_role_sub (m : GitHubMetrics) (r : Option ResumeData)
    (ro : Option String) (now : ℤ) :
    (compute_scores m r ro now).score_breakdown.role_alignment_score =
      round1 (role_alignment_score (normalize_role_key (ro.getD ""))
        m.languages r) := rfl

-- ── evaluation lemmas at concrete inputs ────────────────────────────

theorem ga_zero (m : GitHubMetrics) (h1 : m.total_stars = 0)
    (h2 : m.commits_last_90_days = 0) (h3 : m.total_public_repos = 0) :
    github_activity_score m = 0 := by
  simp only [github_activity_score, h1, h2, h3,
    log_curve_nonpos (le_refl (0 : ℝ)), zero_mul, add_zero]
  exact clamp_eq le_rfl (by norm_num)

theorem rc_zero (m : GitHubMetrics) (now : ℤ) (h1 : m.commits_last_90_days = 0)
    (h2 : m.last_activity = none) : recency_score m now = 0 := by
  simp only [recency_score, h1, h2, log_curve_nonpos (le_refl (0 : ℝ)),
    zero_mul, add_zero]
  exact clamp_eq le_rfl (by norm_num)

theorem pd_langs_only (m : GitHubMetrics) (h1 : m.top_repositories = [])
    (h2 : m.total_public_repos = 0) :
    project_depth_score m =
      clamp (min ((m.languages.length : ℝ) / 3.0) 1.0 * 6.0) 0 20 := by
  simp only [project_depth_score, h1, h2, List.map_nil, List.sum_nil,
    log_curve_nonpos (le_refl (0 : ℝ)), zero_mul, add_zero, zero_add,
    List.length_nil, Nat.zero_min, Nat.cast_zero, mul_one]

theorem pd_python : project_depth_score metrics_python = 2 := by
  rw [pd_langs_only metrics_python rfl rfl]
  rw [show ((metrics_python.languages.length : ℕ) : ℝ) = 1 from by
    norm_num [metrics_python]]
  rw [min_eq_left (by norm_num : (1 : ℝ) / 3.0 ≤ 1.0)]
  rw [show (1 : ℝ) / 3.0 * 6.0 = 2 from by norm_num]
  exact clamp_eq (by norm_num) (by norm_num)

theorem pd_nolang (m : GitHubMetrics) (h1 : m.top_repositories = [])
    (h2 : m.total_public_repos = 0) (h3 : m.languages = []) :
    project_depth_score m = 0 := by
  rw [pd_langs_only m h1 h2, h3]
  rw [show (((([] : List String)).length : ℕ) : ℝ) = 0 from by norm_num]
  rw [min_eq_left (by norm_num : (0 : ℝ) / 3.0 ≤ 1.0)]
  rw [show (0 : ℝ) / 3.0 * 6.0 = 0 from by norm_num]
  exact clamp_eq le_rfl (by norm_num)

theorem rs_none (l : List String) :
    resume_skill_score none l =
      clamp (min (((l.map lower_str).dedup.length : ℝ) * 3.0) 15.0) 0 30 := rfl

theorem rs_python : resume_skill_score none ["python"] = 3 := by
  rw [rs_none]
  rw [show ((["python"] : List String).map lower_str).dedup.length = 1 from by decide]
  rw [show (((1 : ℕ) : ℝ)) * 3.0 = 3 from by norm_num]
  rw [min_eq_left (by norm_num : (3 : ℝ) ≤ 15.0)]
  exact clamp_eq (by norm_num) (by norm_num)

theorem rs_empty : resume_skill_score none [] = 0 := by
  rw [rs_none]
  rw [show (([] : List String).map lower_str).dedup.length = 0 from by decide]
  rw [show (((0 : ℕ) : ℝ)) * 3.0 = 0 from by norm_num]
  rw [min_eq_left (by norm_num : (0 : ℝ) ≤ 15.0)]
  exact clamp_eq le_rfl (by norm_num)

theorem ra_backend (l : List String) (r : Option ResumeData) :
    role_alignment_score "backend" l r =
      clamp ((match_count backend_keywords (combined_keywords l r) : ℝ) / 18 *
        15.0) 0 15 := by
  simp only [role_alignment_score,
    show ROLE_KEYWORDS.lookup "backend" = some backend_keywords from rfl,
    show backend_keywords.isEmpty = false from rfl, Bool.false_eq_true,
    if_false,
    show (backend_keywords.length : ℝ) = 18 from by norm_num [backend_keywords]]

theorem ra_backend_python : role_alignment_score "backend" ["python"] none = 5 / 6 := by
  rw [ra_backend]
  rw [show match_count backend_keywords (combined_keywords ["python"] none) = 1 from
    by decide]
  rw [show (((1 : ℕ) : ℝ)) / 18 * 15.0 = 5 / 6 from by norm_num]
  exact clamp_eq (by norm_num) (by norm_num)

theorem ra_backend_empty : role_alignment_score "backend" [] none = 0 := by
  rw [ra_backend]
  rw [show match_count backend_keywords (combined_keywords [] none) = 0 from by decide]
  rw [show (((0 : ℕ) : ℝ)) / 18 * 15.0 = 0 from by norm_num]
  exact clamp_eq le_rfl (by norm_num)

theorem round1_intCast (n : ℤ) : round1 ((n : ℤ) : ℝ) = (n : ℝ) := by
  have hfl : ⌊10 * ((n : ℤ) : ℝ)⌋ = 10 * n := by
    rw [show (10 : ℝ) * ((n : ℤ) : ℝ) = ((10 * n : ℤ) : ℝ) from by push_cast; ring,
      Int.floor_intCast]
  rw [round1_eq_low hfl (by push_cast; norm_num)]
  push_cast
  ring

theorem rc_now_irrel (m : GitHubMetrics) (now now' : ℤ)
    (h : m.last_activity = none) :
    recency_score m now = recency_score m now' := by
  simp only [recency_score, h]

theorem rc_active_5 : recency_score metrics_active 5 = 5 := by
  simp only [recency_score,
    show metrics_active.commits_last_90_days = 0 from rfl,
    show metrics_active.last_activity = some (.parsed 0) from rfl,
    log_curve_nonpos (le_refl (0 : ℝ)), zero_mul, zero_add]
  rw [if_pos (by norm_num : (5 : ℤ) - 0 ≤ 7)]
  rw [show clamp (5.0 : ℝ) 0 10 = 5.0 from clamp_eq (by norm_num) (by norm_num)]
  norm_num

theorem rc_active_400 : recency_score metrics_active 400 = 0 := by
  simp only [recency_score,
    show metrics_active.commits_last_90_days = 0 from rfl,
    show metrics_active.last_activity = some (.parsed 0) from rfl,
    log_curve_nonpos (le_refl (0 : ℝ)), zero_mul, zero_add]
  rw [if_neg (by norm_num : ¬ ((400 : ℤ) - 0 ≤ 7)),
    if_neg (by norm_num : ¬ ((400 : ℤ) - 0 ≤ 30)),
    if_neg (by norm_num : ¬ ((400 : ℤ) - 0 ≤ 90)),
    if_neg (by norm_num : ¬ ((400 : ℤ) - 0 ≤ 180))]
  rw [show clamp (0.0 : ℝ) 0 10 = 0.0 from clamp_eq (by norm_num) (by norm_num)]
  norm_num

theorem c6_gaps_value :
    (compute_scores metrics_empty none (some "Backend Developer") 0).learning_gaps =
      [gap_language, gap_consistency, gap_visibility,
       "Strengthen skills aligned to Backend Developer role"] := by
  have hnorm : normalize_role_key "Backend Developer" = "backend" := by decide
  simp only [compute_scores, Option.getD_some,
    show metrics_empty.languages = ([] : List String) from rfl, hnorm,
    ra_backend_empty, rs_empty, List.length_nil,
    show metrics_empty.commits_last_90_days = 0 from rfl,
    show metrics_empty.total_stars = 0 from rfl,
    show role_display (some "Backend Developer") = "Backend Developer" from rfl]
  norm_num [Option.isSome]
  rfl

-- ── claims ──────────────────────────────────────────────────────────

/-- C1 as literally stated is false: on a single-language, otherwise empty
profile applied to the backend role, the returned master_score is the
one-decimal rounding 5.8 of the clamped sum 35/6 of the five sub-scores,
not the clamped sum itself. -/
theorem c1_exact_clamped_sum_false :
    ¬ ((compute_scores metrics_python none (some "backend") 0).master_score =
      clamp (resume_skill_score none metrics_python.languages +
        github_activity_score metrics_python + project_depth_score metrics_python +
        role_alignment_score (normalize_role_key "backend")
          metrics_python.languages none +
        recency_score metrics_python 0) 0 100) := by
  have hlang : metrics_python.languages = ["python"] := rfl
  have hnorm : normalize_role_key "backend" = "backend" := by decide
  have hsum : resume_skill_score none metrics_python.languages +
      github_activity_score metrics_python + project_depth_score metrics_python +
      role_alignment_score (normalize_role_key "backend")
        metrics_python.languages none +
      recency_score metrics_python 0 = 35 / 6 := by
    rw [hlang, hnorm, rs_python, ga_zero metrics_python rfl rfl rfl, pd_python,
      ra_backend_python, rc_zero metrics_python 0 rfl rfl]
    norm_num
  rw [compute_scores_master]
  rw [show ((some "backend" : Option String).getD "") = "backend" from rfl]
  rw [hsum, clamp_eq (by norm_num) (by norm_num)]
  have hfl : ⌊10 * (35 / 6 : ℝ)⌋ = 58 := by
    rw [Int.floor_eq_iff]
    norm_num
  rw [round1_eq_low hfl (by push_cast; norm_num)]
  push_cast
  norm_num

/-- C1 amended: the returned master_score is the clamped sum of the five
sub-scores rounded to one decimal; it lies in [0,100] and each sub-score
lies within its fixed ceiling (30/25/20/15/10). -/
theorem c1_master_rounded_clamped_sum (m : GitHubMetrics)
    (r : Option ResumeData) (ro : Option String) (now : ℤ) :
    (compute_scores m r ro now).master_score =
      round1 (clamp (resume_skill_score r m.languages + github_activity_score m +
        project_depth_score m +
        role_alignment_score (normalize_role_key (ro.getD "")) m.languages r +
        recency_score m now) 0 100) ∧
    0 ≤ (compute_scores m r ro now).master_score ∧
    (compute_scores m r ro now).master_score ≤ 100 ∧
    (0 ≤ resume_skill_score r m.languages ∧ resume_skill_score r m.languages ≤ 30) ∧
    (0 ≤ github_activity_score m ∧ github_activity_score m ≤ 25) ∧
    (0 ≤ project_depth_score m ∧ project_depth_score m ≤ 20) ∧
    (0 ≤ role_alignment_score (normalize_role_key (ro.getD "")) m.languages r ∧
      role_alignment_score (normalize_role_key (ro.getD "")) m.languages r ≤ 15) ∧
    (0 ≤ recency_score m now ∧ recency_score m now ≤ 10) := by
  refine ⟨compute_scores_master m r ro now, ?_, ?_,
    resume_skill_score_bounds r m.languages, github_activity_score_bounds m,
    project_depth_score_bounds m, role_alignment_score_bounds _ _ _,
    recency_score_bounds m now⟩
  · rw [compute_scores_master]
    exact round1_nonneg (le_clamp _ _ _)
  · rw [compute_scores_master]
    exact round1_le_hundred (clamp_le (by norm_num))

/-- C2 as stated is false: the aggregator is not a function of its explicit
arguments alone; with a parsed last-activity timestamp its recency component
reads the wall clock, so the same arguments on two different days give
different outputs (master 5.0 on day 5 vs 0.0 on day 400). -/
theorem c2_function_of_args_alone_false :
    compute_scores metrics_active none (some "backend") 5 ≠
      compute_scores metrics_active none (some "backend") 400 := by
  intro h
  have hm := congrArg CompositeResult.master_score h
  rw [compute_scores_master, compute_scores_master] at hm
  rw [show ((some "backend" : Option String).getD "") = "backend" from rfl] at hm
  rw [show metrics_active.languages = ([] : List String) from rfl] at hm
  rw [show normalize_role_key "backend" = "backend" from by decide] at hm
  rw [rs_empty, ga_zero metrics_active rfl rfl rfl,
    pd_nolang metrics_active rfl rfl rfl, ra_backend_empty,
    rc_active_5, rc_active_400] at hm
  rw [show (0 : ℝ) + 0 + 0 + 0 + 5 = ((5 : ℤ) : ℝ) from by push_cast; ring,
    show (0 : ℝ) + 0 + 0 + 0 + 0 = ((0 : ℤ) : ℝ) from by push_cast; ring] at hm
  rw [show clamp (((5 : ℤ) : ℝ)) 0 100 = ((5 : ℤ) : ℝ) from
      clamp_eq (by push_cast; norm_num) (by push_cast; norm_num),
    show clamp (((0 : ℤ) : ℝ)) 0 100 = ((0 : ℤ) : ℝ) from
      clamp_eq (by push_cast; norm_num) (by push_cast; norm_num)] at hm
  rw [round1_intCast, round1_intCast] at hm
  norm_num at hm

/-- C2 amended: both transforms are deterministic functions of their inputs
together with the current clock day; the aggregator's output is independent
of the clock whenever last_activity is absent, and the curriculum generator
never reads the clock at all. -/
theorem c2_deterministic :
    (∀ (m : GitHubMetrics) (r : Option ResumeData) (ro : Option String)
        (now now' : ℤ), m.last_activity = none →
      compute_scores m r ro now = compute_scores m r ro now') ∧
    (∀ (sr : CompositeResult) (role name : String),
      generate_training_plan sr role name = generate_training_plan sr role name) := by
  refine ⟨fun m r ro now now' h => ?_, fun sr role name => rfl⟩
  have hrc : recency_score m now = recency_score m now' := rc_now_irrel m now now' h
  simp only [compute_scores, hrc]

/-- Witness for C2 on the all-empty metrics record across two distant days. -/
theorem c2_deterministic_witness :
    compute_scores metrics_empty none none 0 =
      compute_scores metrics_empty none none 999 :=
  c2_deterministic.1 metrics_empty none none 0 999 rfl

/-- C5: the learning-gaps list equals the concatenation of five unconditional
threshold checks in the fixed order language-diversity, consistency,
visibility, role-alignment, résumé-keywords, with the résumé gap appended
iff a résumé is present and the résumé-skill sub-score is below 15. -/
theorem c5_gaps_fixed_checks (m : GitHubMetrics) (r : Option ResumeData)
    (ro : Option String) (now : ℤ) :
    (compute_scores m r ro now).learning_gaps =
      gaps_spec m.languages.length m.commits_last_90_days m.total_stars
        (role_alignment_score (normalize_role_key (ro.getD "")) m.languages r)
        (resume_skill_score r m.languages) r.isSome (role_display ro) := by
  simp only [compute_scores, gaps_spec]
  split_ifs <;> simp_all

/-- C6: on the all-empty metrics record with no résumé and role "Backend
Developer", the role normalizes to the backend category, the master score is
0, the band is Risk, the role-alignment sub-score is 0 (not the neutral 7.5),
and the gaps include the language-diversity, consistency and visibility
messages. -/
theorem c6_empty_profile_backend :
    normalize_role_key "Backend Developer" = "backend" ∧
    (compute_scores metrics_empty none (some "Backend Developer") 0).master_score = 0 ∧
    (compute_scores metrics_empty none (some "Backend Developer") 0).confidence_band =
      "Risk" ∧
    gap_language ∈
      (compute_scores metrics_empty none (some "Backend Developer") 0).learning_gaps ∧
    gap_consistency ∈
      (compute_scores metrics_empty none (some "Backend Developer") 0).learning_gaps ∧
    gap_visibility ∈
      (compute_scores metrics_empty none (some "Backend Developer") 0).learning_gaps ∧
    (compute_scores metrics_empty none
      (some "Backend Developer") 0).score_breakdown.role_alignment_score = 0 := by
  have hnorm : normalize_role_key "Backend Developer" = "backend" := by decide
  have hsum : resume_skill_score none metrics_empty.languages +
      github_activity_score metrics_empty + project_depth_score metrics_empty +
      role_alignment_score (normalize_role_key "Backend Developer")
        metrics_empty.languages none +
      recency_score metrics_empty 0 = 0 := by
    rw [show metrics_empty.languages = ([] : List String) from rfl, hnorm,
      rs_empty, ga_zero metrics_empty rfl rfl rfl,
      pd_nolang metrics_empty rfl rfl rfl, ra_backend_empty,
      rc_zero metrics_empty 0 rfl rfl]
    norm_num
  have hclamp : clamp (0 : ℝ) 0 100 = 0 := clamp_eq le_rfl (by norm_num)
  have hr0 : round1 (0 : ℝ) = 0 := by
    have h := round1_intCast 0
    rw [show (((0 : ℤ) : ℝ)) = (0 : ℝ) from by norm_num] at h
    exact h
  refine ⟨hnorm, ?_, ?_, ?_, ?_, ?_, ?_⟩
  · rw [compute_scores_master,
      show ((some "Backend Developer" : Option String).getD "") = "Backend Developer"
        from rfl, hsum, hclamp, hr0]
  · rw [compute_scores_band,
      show ((some "Backend Developer" : Option String).getD "") = "Backend Developer"
        from rfl, hsum, hclamp]
    unfold band_of
    rw [if_neg (by norm_num), if_neg (by norm_num), if_neg (by norm_num)]
  · rw [c6_gaps_value]
    simp
  · rw [c6_gaps_value]
    simp
  · rw [c6_gaps_value]
    simp
  · rw [compute_scores_role_sub,
      show ((some "Backend Developer" : Option String).getD "") = "Backend Developer"
        from rfl, show metrics_empty.languages = ([] : List String) from rfl,
      hnorm, ra_backend_empty, hr0]

/-- C7: for every scale > 0, `log_curve` returns 0 for all x ≤ 0 (hence 0 at
x = 0) and min(1, ln(1+x)/ln(1+scale)) for x > 0, and it is monotonically
non-decreasing in x for fixed scale. -/
theorem c7_log_curve_props (scale : ℝ) (hs : 0 < scale) :
    (∀ x : ℝ, x ≤ 0 → log_curve x scale = 0) ∧
    log_curve 0 scale = 0 ∧
    (∀ x : ℝ, 0 < x →
      log_curve x scale = min 1 (Real.log (1 + x) / Real.log (1 + scale))) ∧
    Monotone (fun x => log_curve x scale) := by
  have hL : 0 < Real.log (1 + scale) := Real.log_pos (by linarith)
  refine ⟨fun x hx => log_curve_nonpos hx, log_curve_nonpos le_rfl, fun x hx => ?_, ?_⟩
  · unfold log_curve
    rw [if_neg (not_le.mpr hx)]
  · intro a b hab
    simp only
    by_cases hb : b ≤ 0
    · rw [log_curve_nonpos (le_trans hab hb), log_curve_nonpos hb]
    · push_neg at hb
      have hlogb : 0 ≤ Real.log (1 + b) := Real.log_nonneg (by linarith)
      by_cases ha : a ≤ 0
      · rw [log_curve_nonpos ha]
        unfold log_curve
        rw [if_neg (not_le.mpr hb)]
        exact le_min (by norm_num) (div_nonneg hlogb hL.le)
      · push_neg at ha
        unfold log_curve
        rw [if_neg (not_le.mpr ha), if_neg (not_le.mpr hb)]
        refine min_le_min le_rfl ?_
        exact (div_le_div_right hL).mpr (Real.log_le_log (by linarith) (by linarith))

/-- Witness for C7 at scale = 1. -/
theorem c7_log_curve_props_witness :
    (0 : ℝ) < 1 ∧
    ((∀ x : ℝ, x ≤ 0 → log_curve x 1 = 0) ∧
     log_curve 0 1 = 0 ∧
     (∀ x : ℝ, 0 < x →
       log_curve x 1 = min 1 (Real.log (1 + x) / Real.log (1 + 1))) ∧
     Monotone (fun x => log_curve x 1)) :=
  ⟨by norm_num, c7_log_curve_props 1 (by norm_num)⟩

/-- C3: band assignment is a total function of the master score with
non-overlapping inclusive-lower-bound thresholds: on [0,100] exactly the
stated band is produced in each of the four regions. -/
theorem c3_band_total_nonoverlapping (s : ℝ) (h0 : 0 ≤ s) (h100 : s ≤ 100) :
    (band_of s = "Strong" ↔ 75 ≤ s) ∧
    (band_of s = "Good" ↔ 60 ≤ s ∧ s < 75) ∧
    (band_of s = "Moderate" ↔ 45 ≤ s ∧ s < 60) ∧
    (band_of s = "Risk" ↔ s < 45) := by
  unfold band_of
  split_ifs with h1 h2 h3
  · exact ⟨⟨fun _ => h1, fun _ => rfl⟩,
      ⟨fun h => absurd h (by decide), fun h => absurd h.2 (not_lt.mpr h1)⟩,
      ⟨fun h => absurd h (by decide), fun h => absurd h.2 (not_lt.mpr (by linarith))⟩,
      ⟨fun h => absurd h (by decide), fun h => absurd h (not_lt.mpr (by linarith))⟩⟩
  · push_neg at h1
    exact ⟨⟨fun h => absurd h (by decide), fun h => absurd h (not_le.mpr h1)⟩,
      ⟨fun _ => ⟨h2, h1⟩, fun _ => rfl⟩,
      ⟨fun h => absurd h (by decide), fun h => absurd h.2 (not_lt.mpr h2)⟩,
      ⟨fun h => absurd h (by decide), fun h => absurd h (not_lt.mpr (by linarith))⟩⟩
  · push_neg at h1 h2
    exact ⟨⟨fun h => absurd h (by decide), fun h => absurd h (not_le.mpr (by linarith))⟩,
      ⟨fun h => absurd h (by decide), fun h => absurd h.1 (not_le.mpr h2)⟩,
      ⟨fun _ => ⟨h3, h2⟩, fun _ => rfl⟩,
      ⟨fun h => absurd h (by decide), fun h => absurd h (not_lt.mpr h3)⟩⟩
  · push_neg at h1 h2 h3
    exact ⟨⟨fun h => absurd h (by decide), fun h => absurd h (not_le.mpr (by linarith))⟩,
      ⟨fun h => absurd h (by decide), fun h => absurd h.1 (not_le.mpr (by linarith))⟩,
      ⟨fun h => absurd h (by decide), fun h => absurd h.1 (not_le.mpr h3)⟩,
      ⟨fun _ => h3, fun _ => rfl⟩⟩

/-- C9 is false as stated: a composite result carrying exactly one learning
gap produces exactly one focus area, below the claimed minimum of three. -/
theorem c9_three_to_five_false :
    ¬ (3 ≤ (generate_training_plan result_one_gap "Backend Developer"
          "Alex").focus_areas.length ∧
       (generate_training_plan result_one_gap "Backend Developer"
          "Alex").focus_areas.length ≤ 5) := by
  have h : (generate_training_plan result_one_gap "Backend Developer"
      "Alex").focus_areas.length = 1 := by
    simp [generate_training_plan, result_one_gap]
  intro hc
  rw [h] at hc
  exact absurd hc.1 (by norm_num)

/-- C9 corrected: focus_areas has exactly 3 entries when the gaps list is
empty and min(gap count, 4) entries otherwise, hence between 1 and 4 — the
claimed lower bound of 3 only holds when there are no gaps or at least 3. -/
theorem c9_focus_area_count (sr : CompositeResult) (role name : String) :
    (generate_training_plan sr role name).focus_areas.length =
      (if sr.learning_gaps.isEmpty then 3 else min sr.learning_gaps.length 4) ∧
    1 ≤ (generate_training_plan sr role name).focus_areas.length ∧
    (generate_training_plan sr role name).focus_areas.length ≤ 4 := by
  have hlen : (generate_training_plan sr role name).focus_areas.length =
      if sr.learning_gaps.isEmpty then 3 else min sr.learning_gaps.length 4 := by
    cases hg : sr.learning_gaps with
    | nil => simp [generate_training_plan, hg]
    | cons a tl =>
      simp [generate_training_plan, hg, List.length_take]
      omega
  refine ⟨hlen, ?_, ?_⟩
  · rw [hlen]
    split_ifs with hh
    · norm_num
    · have h1 : sr.learning_gaps ≠ [] := by
        intro he
        rw [he] at hh
        exact hh rfl
      have h2 : 0 < sr.learning_gaps.length := List.length_pos.mpr h1
      omega
  · rw [hlen]
    split_ifs <;> omega

theorem advanced_len_3 (k : String) : (role_topics_for k).advanced.length = 3 := by
  unfold role_topics_for
  rcases hl : ROLE_TRAINING_TOPICS.lookup k with _ | t
  · rfl
  · have hp : t.advanced.length = 3 :=
      lookup_forall (fun v : TierTopics => v.advanced.length = 3)
        ROLE_TRAINING_TOPICS k t (by decide) hl
    rw [Option.getD_some]
    exact hp

theorem week_entry_topics_advanced (rt : TierTopics) (weeks w : ℕ)
    (hadv : rt.advanced.length = 3) :
    ∀ t ∈ (week_entry rt 2 weeks w).topics, t ∈ rt.advanced := by
  intro t ht
  simp only [week_entry] at ht
  rw [show ((2 : ℚ) - ((2 : ℕ) : ℚ)) = 0 from by norm_num, mul_zero,
    show py_int 0 = 0 from rfl, Int.toNat_zero, Nat.add_zero, min_self,
    show level_order.getD 2 "" = "advanced" from rfl,
    show tier_list rt "advanced" = rt.advanced from rfl] at ht
  rcases List.mem_append.mp ht with h1 | h2
  · rcases List.mem_singleton.mp h1 with rfl
    exact getD_mem_of_lt _ _ _ (by rw [hadv]; exact Nat.mod_lt _ (by norm_num))
  · have h3 := List.take_subset 1 _ h2
    rcases List.mem_map.mp h3 with ⟨p, hp, rfl⟩
    have hp2 := List.mem_of_mem_filter hp
    exact snd_mem_of_mem_enumFrom _ 0 p hp2

/-- C8: for every composite result in the Strong band, the band table
resolves to 4 weeks, the "Advanced" track and the advanced starting tier,
and every topic of each of the 4 generated weeks is drawn from the advanced
tier of the resolved role catalog: the clamped tier interpolation never
leaves the starting tier. -/
theorem c8_strong_all_weeks_advanced (sr : CompositeResult) (role name : String)
    (h : sr.confidence_band = "Strong") :
    band_params sr.confidence_band = (4, "Advanced", "advanced") ∧
    (generate_training_plan sr role name).weekly_plan.length = 4 ∧
    ∀ e ∈ (generate_training_plan sr role name).weekly_plan, ∀ t ∈ e.topics,
      t ∈ (role_topics_for (normalize_role_key role)).advanced := by
  have hbp : band_params sr.confidence_band = (4, "Advanced", "advanced") := by
    rw [h]
    rfl
  have hfa : (generate_training_plan sr role name).weekly_plan =
      (List.range 4).map (fun i =>
        week_entry (role_topics_for (normalize_role_key role)) 2 4 (i + 1)) := by
    simp only [generate_training_plan, hbp,
      show level_order.contains "advanced" = true from rfl,
      show level_order.findIdx (fun l => l == "advanced") = 2 from rfl,
      if_true]
  refine ⟨hbp, ?_, ?_⟩
  · rw [hfa]
    simp
  · intro e he t ht
    rw [hfa] at he
    rcases List.mem_map.mp he with ⟨i, hi, rfl⟩
    exact week_entry_topics_advanced _ 4 (i + 1)
      (advanced_len_3 (normalize_role_key role)) t ht

/-- Witness for C8 at a concrete Strong-band composite result. -/
theorem c8_strong_all_weeks_advanced_witness :
    band_params result_strong.confidence_band = (4, "Advanced", "advanced") ∧
    (generate_training_plan result_strong "Backend Developer"
      "Sam").weekly_plan.length = 4 ∧
    ∀ e ∈ (generate_training_plan result_strong "Backend Developer"
      "Sam").weekly_plan, ∀ t ∈ e.topics,
      t ∈ (role_topics_for (normalize_role_key "Backend Developer")).advanced :=
  c8_strong_all_weeks_advanced result_strong "Backend Developer" "Sam" rfl

/-- C10: an absent, empty, or whitespace-only applied role normalizes to the
"backend" category (the empty lowered-trimmed key is a substring of every
label and the first catalog label wins), so compute_scores evaluates role
alignment against the backend keyword set rather than returning the neutral
7.5 unknown-role default. -/
theorem c10_empty_role_normalizes_backend :
    normalize_role_key "" = "backend" ∧
    normalize_role_key "   " = "backend" ∧
    ROLE_KEYWORDS.lookup "backend" = some backend_keywords ∧
    (∀ (m : GitHubMetrics) (r : Option ResumeData) (now : ℤ),
      (compute_scores m r none now).score_breakdown.role_alignment_score =
        round1 (clamp ((match_count backend_keywords
          (combined_keywords m.languages r) : ℝ) / 18 * 15.0) 0 15)) ∧
    (∀ (m : GitHubMetrics) (r : Option ResumeData) (now : ℤ),
      (compute_scores m r (some "   ") now).score_breakdown.role_alignment_score =
        round1 (clamp ((match_count backend_keywords
          (combined_keywords m.languages r) : ℝ) / 18 * 15.0) 0 15)) := by
  refine ⟨by decide, by decide, rfl, ?_, ?_⟩
  · intro m r now
    rw [compute_scores_role_sub,
      show ((none : Option String).getD "") = "" from rfl,
      show normalize_role_key "" = "backend" from by decide, ra_backend]
  · intro m r now
    rw [compute_scores_role_sub,
      show ((some "   " : Option String).getD "") = "   " from rfl,
      show normalize_role_key "   " = "backend" from by decide, ra_backend]

/-- C4 as stated is false: for languages {python} with no résumé and the
applied category "backend", the reported all-role percentage is the
one-decimal rounding 5.6, not the exact alignment ratio times 100 (50/9). -/
theorem c4_percentage_exact_false :
    ¬ ((compute_all_role_scores ["python"] none).lookup "backend" =
      some ((match_count backend_keywords (combined_keywords ["python"] none) : ℝ) /
        (backend_keywords.length : ℝ) * 100)) := by
  have h2 : (compute_all_role_scores ["python"] none).lookup "backend" =
      some (round1 (clamp ((match_count backend_keywords
        (combined_keywords ["python"] none) : ℝ) /
        (backend_keywords.length : ℝ) * 100) 0 100)) :=
    lookup_map_assoc
      (fun req : List String => round1 (clamp ((match_count req
        (combined_keywords ["python"] none) : ℝ) / (req.length : ℝ) * 100) 0 100))
      ROLE_KEYWORDS "backend" backend_keywords rfl
  rw [h2,
    show match_count backend_keywords (combined_keywords ["python"] none) = 1 from
      by decide,
    show (backend_keywords.length : ℝ) = 18 from by norm_num [backend_keywords],
    show (((1 : ℕ) : ℝ)) / 18 * 100 = 50 / 9 from by push_cast; norm_num,
    show clamp ((50 : ℝ) / 9) 0 100 = 50 / 9 from
      clamp_eq (by norm_num) (by norm_num)]
  have hfl : ⌊10 * (50 / 9 : ℝ)⌋ = 55 := by
    rw [Int.floor_eq_iff]
    norm_num
  rw [round1_eq_high hfl (by push_cast; norm_num)]
  simp only [Option.some_inj]
  push_cast
  norm_num

/-- C4 corrected: for every applied category C of the taxonomy, the reported
all-role percentage equals the alignment ratio times 100 rounded to one
decimal, and the role-alignment sub-score equals the ratio times 15 exactly;
so percentage/100 and alignment/15 agree up to the percentage's rounding. -/
theorem c4_percentage_rounded (languages : List String) (r : Option ResumeData)
    (C : String) (required : List String)
    (h : ROLE_KEYWORDS.lookup C = some required) :
    (compute_all_role_scores languages r).lookup C =
      some (round1 ((match_count required (combined_keywords languages r) : ℝ) /
        (required.length : ℝ) * 100)) ∧
    role_alignment_score C languages r =
      (match_count required (combined_keywords languages r) : ℝ) /
        (required.length : ℝ) * 15.0 := by
  have hmc : (match_count required (combined_keywords languages r) : ℝ) ≤
      (required.length : ℝ) := by
    have hn : match_count required (combined_keywords languages r) ≤ required.length :=
      List.length_filter_le _ _
    exact_mod_cast hn
  have hdiv0 : 0 ≤ (match_count required (combined_keywords languages r) : ℝ) /
      (required.length : ℝ) :=
    div_nonneg (Nat.cast_nonneg _) (Nat.cast_nonneg _)
  have hdiv1 : (match_count required (combined_keywords languages r) : ℝ) /
      (required.length : ℝ) ≤ 1 :=
    div_le_one_of_le hmc (Nat.cast_nonneg _)
  have hne : required.isEmpty = false := by
    refine lookup_forall (fun v : List String => v.isEmpty = false)
      ROLE_KEYWORDS C required ?_ h
    intro p hp
    fin_cases hp <;> rfl
  constructor
  · have hl : (compute_all_role_scores languages r).lookup C =
        some (round1 (clamp ((match_count required
          (combined_keywords languages r) : ℝ) /
          (required.length : ℝ) * 100) 0 100)) :=
      lookup_map_assoc
        (fun req : List String => round1 (clamp ((match_count req
          (combined_keywords languages r) : ℝ) / (req.length : ℝ) * 100) 0 100))
        ROLE_KEYWORDS C required h
    rw [show clamp ((match_count required (combined_keywords languages r) : ℝ) /
        (required.length : ℝ) * 100) 0 100 =
        (match_count required (combined_keywords languages r) : ℝ) /
        (required.length : ℝ) * 100 from
      clamp_eq (by positivity) (by nlinarith [hdiv1])] at hl
    exact hl
  · simp only [role_alignment_score, h, hne, Bool.false_eq_true, if_false]
    exact clamp_eq (by positivity) (by nlinarith [hdiv1])

/-- Witness for C4 at languages {python}, no résumé, category "backend". -/
theorem c4_percentage_rounded_witness :
    ROLE_KEYWORDS.lookup "backend" = some backend_keywords ∧
    ((compute_all_role_scores ["python"] none).lookup "backend" =
      some (round1 ((match_count backend_keywords
        (combined_keywords ["python"] none) : ℝ) /
        (backend_keywords.length : ℝ) * 100)) ∧
     role_alignment_score "backend" ["python"] none =
      (match_count backend_keywords (combined_keywords ["python"] none) : ℝ) /
        (backend_keywords.length : ℝ) * 15.0) :=
  ⟨rfl, c4_percentage_rounded ["python"] none "backend" backend_keywords rfl⟩

/-- Witness for C3 at s = 80. -/
theorem c3_band_total_nonoverlapping_witness :
    (0 : ℝ) ≤ 80 ∧ (80 : ℝ) ≤ 100 ∧
    ((band_of 80 = "Strong" ↔ (75 : ℝ) ≤ 80) ∧
     (band_of 80 = "Good" ↔ (60 : ℝ) ≤ 80 ∧ (80 : ℝ) < 75) ∧
     (band_of 80 = "Moderate" ↔ (45 : ℝ) ≤ 80 ∧ (80 : ℝ) < 60) ∧
     (band_of 80 = "Risk" ↔ (80 : ℝ) < 45)) :=
  ⟨by norm_num, by norm_num,
   c3_band_total_nonoverlapping 80 (by norm_num) (by norm_num)⟩

end Aris
